import Mathlib

set_option autoImplicit false

/-
Shallow embedding of the build-pipeline orchestrator and image-assembly
engine of the OrangePi_Distro_Builder repository.

Two build variants exist in the source tree: the monolithic `builder.c`
(executor `execute_command_safe`, retry wrapper `execute_command_with_retry`,
signal cleanup `cleanup_on_signal`/`cleanup_build`, directory creation
`create_directory_safe`) and the modular `src/` tree (`system_utils.c`
executor `execute_command` and `create_directory`, `image.c` image assembly,
`kernel.c` `create_system_image`).  Both are embedded below; external shell
commands are modelled by oracles giving each invocation's wait status, and
side effects are recorded as explicit traces.
-/

namespace OPi

/-- Error taxonomy of `builder.c` (`error_code_t`, builder.c:100-113),
transcribed constructor-for-constant. -/
inductive ErrorCode where
  | success
  | permissionDenied
  | fileNotFound
  | networkFailure
  | compilationFailed
  | insufficientSpace
  | dependencyMissing
  | gpuDriverFailed
  | kernelConfigFailed
  | installationFailed
  | userCancelled
  | unknown
deriving DecidableEq, Repr

/-- Numeric value of each `error_code_t` constant (builder.c:101-112). -/
def ErrorCode.toInt : ErrorCode → Int
  | .success => 0
  | .permissionDenied => 1
  | .fileNotFound => 2
  | .networkFailure => 3
  | .compilationFailed => 4
  | .insufficientSpace => 5
  | .dependencyMissing => 6
  | .gpuDriverFailed => 7
  | .kernelConfigFailed => 8
  | .installationFailed => 9
  | .userCancelled => 10
  | .unknown => 99

/-- Structured failure record `error_context_t` (builder.c:206-212); the
fields not relevant to the claims (file, line, timestamp) are omitted. -/
structure ErrorContext where
  code : ErrorCode
  message : String
deriving DecidableEq, Repr

/-- glibc `WIFEXITED`: low seven bits of the wait status are zero. -/
def WIFEXITED (s : Nat) : Bool := s % 128 == 0

/-- glibc `WEXITSTATUS`: bits 8-15 of the wait status. -/
def WEXITSTATUS (s : Nat) : Nat := s / 256 % 256

/-- glibc `WTERMSIG`: low seven bits of the wait status. -/
def WTERMSIG (s : Nat) : Nat := s % 128

/-- glibc `WIFSIGNALED`: low seven bits are neither 0 (normal exit) nor
0x7f (stopped). -/
def WIFSIGNALED (s : Nat) : Bool := s % 128 != 0 && s % 128 != 127

/-- Log file of the modular build variant (`LOG_FILE`, src/config.h:6). -/
def LOG_FILE : String := "/tmp/orangepi_build.log"

/-- Log file of the monolithic build variant (`LOG_FILE`, builder.c:50). -/
def BUILDER_LOG_FILE : String := "/tmp/opi5plus_build.log"

/-- Build scratch directory of the monolithic variant (builder.c:49). -/
def BUILDER_BUILD_DIR : String := "/tmp/opi5plus_build"

/-- The shell line `execute_command` hands to `system` once it decides to
spawn (src/system_utils.c:24-29 and builder.c:872-876): the command is
piped to `tee -a` when output is echoed, otherwise appended to the log. -/
def composedLogCmd (logFile c : String) (showOutput : Bool) : String :=
  if showOutput then c ++ " 2>&1 | tee -a " ++ logFile
  else c ++ " >> " ++ logFile ++ " 2>&1"

/-- Embedding of `execute_command` (src/system_utils.c:15-51).  `cmd` is the
C string argument (`none` models NULL), `status` the wait status `system`
would return for the composed command.  Result: the `int` return value and
the list of shell lines actually handed to `system` (empty when no child
process is spawned). -/
def execute_command (cmd : Option String) (showOutput : Bool) (status : Nat) :
    Int × List String :=
  match cmd with
  | none => (-1, [])
  | some c =>
    if c.length = 0 then (-1, [])
    else
      let logCmd := composedLogCmd LOG_FILE c showOutput
      if status = 0 then (0, [logCmd]) else (-1, [logCmd])

/-- Result record for `execute_command_safe`: return value, the error
context it populates (when one is populated), and the shell lines handed
to `system`. -/
structure ExecResult where
  ret : Int
  ctx : Option ErrorContext
  spawned : List String
deriving DecidableEq, Repr

/-- Failure message built at builder.c:883-884 for a normal nonzero exit. -/
def exitedMsg (code : Nat) (c : String) : String :=
  "Command exited with code " ++ toString code ++ ": " ++ c

/-- Failure message built at builder.c:886-887 for a signal-terminated child. -/
def signaledMsg (sig : Nat) (c : String) : String :=
  "Command terminated by signal " ++ toString sig ++ ": " ++ c

/-- Failure message built at builder.c:889-890 for an unclassifiable status. -/
def unknownStatusMsg (status : Nat) (c : String) : String :=
  "Command failed with unknown status " ++ toString status ++ ": " ++ c

/-- Embedding of `execute_command_safe` (builder.c:850-901).  `cmd = none`
models a NULL pointer.  The populated `error_context_t` always carries code
`ERROR_UNKNOWN`; only the message text distinguishes the failure modes. -/
def execute_command_safe (cmd : Option String) (showOutput : Bool) (status : Nat) :
    ExecResult :=
  match cmd with
  | none => ⟨-1, some ⟨.unknown, "Empty command provided"⟩, []⟩
  | some c =>
    if c.length = 0 then ⟨-1, some ⟨.unknown, "Empty command provided"⟩, []⟩
    else
      let logCmd := composedLogCmd BUILDER_LOG_FILE c showOutput
      if status = 0 then ⟨0, none, [logCmd]⟩
      else
        let msg :=
          if WIFEXITED status then exitedMsg (WEXITSTATUS status) c
          else if WIFSIGNALED status then signaledMsg (WTERMSIG status) c
          else unknownStatusMsg status c
        ⟨-1, some ⟨.unknown, msg⟩, [logCmd]⟩

/-- Message stored in the error context after the retry loop exhausts all
attempts (builder.c:844). -/
def exhaustedMessage : String := "Command failed after all retries"

/-- Result record of the retry wrapper: return value, number of executor
invocations actually performed, and the error context passed to
`log_error_context` (populated only on the exhausted path). -/
structure RetryResult where
  ret : Int
  attempts : Nat
  ctx : Option ErrorContext
deriving DecidableEq, Repr

/-- One unfolding of the `for (attempt = 1; attempt <= max_retries; ...)`
loop of `execute_command_with_retry` (builder.c:817-841): `remaining` is
`max_retries - attempt + 1`.  At the top of every iteration the
`interrupted` flag is consulted (builder.c:818); a set flag returns `-1` at
once with no further executor call and no error context.  When the loop
falls through, the context is set to `ERROR_UNKNOWN` with
`exhaustedMessage` and logged (builder.c:843-845). -/
def retryLoop (interruptedAt : Nat → Bool) (execRet : Nat → Int) :
    Nat → Nat → RetryResult
  | _, 0 => ⟨-1, 0, some ⟨.unknown, exhaustedMessage⟩⟩
  | attempt, remaining + 1 =>
    if interruptedAt attempt then ⟨-1, 0, none⟩
    else if execRet attempt = 0 then ⟨0, 1, none⟩
    else
      let r := retryLoop interruptedAt execRet (attempt + 1) remaining
      ⟨r.ret, r.attempts + 1, r.ctx⟩

/-- Embedding of `execute_command_with_retry` (builder.c:813-847).
`interruptedAt k` is the value of the volatile `interrupted` flag observed
at the top of iteration `k`; `statusAt k` the wait status of attempt `k`.
Each attempt invokes the `execute_command_safe` embedding. -/
def execute_command_with_retry (cmd : Option String) (showOutput : Bool)
    (maxRetries : Nat) (interruptedAt : Nat → Bool) (statusAt : Nat → Nat) :
    RetryResult :=
  retryLoop interruptedAt (fun k => (execute_command_safe cmd showOutput (statusAt k)).ret)
    1 maxRetries

/-- Observable state of a path on disk, as `stat` plus `S_ISDIR` classify it
(src/system_utils.c:55-82, builder.c:915-944). -/
inductive PathState where
  | absent
  | directory
  | nonDirectory
deriving DecidableEq, Repr

/-- Embedding of `create_directory` (src/system_utils.c:54-84).  Result:
the `int` return value paired with whether `mkdir` was invoked.  A path
that `stat` reports missing is created (success iff `mkdirOk`); an existing
directory is success with no `mkdir`; an existing non-directory is failure
with no `mkdir`. -/
def create_directory (path : Option String) (st : PathState) (mkdirOk : Bool) :
    Int × Bool :=
  match path with
  | none => (-1, false)
  | some _ =>
    match st with
    | .absent => if mkdirOk then (0, true) else (-1, true)
    | .directory => (0, false)
    | .nonDirectory => (-1, false)

/-- Embedding of `create_directory_safe` (builder.c:914-947).  Unlike
`create_directory` it also rejects an empty path, and its `else` branch
(builder.c:940-944) treats any `stat`-visible path — directory or not — as
"already exists", returning success. -/
def create_directory_safe (path : Option String) (st : PathState) (mkdirOk : Bool) :
    Int × Bool :=
  match path with
  | none => (-1, false)
  | some p =>
    if p.length = 0 then (-1, false)
    else
      match st with
      | .absent => if mkdirOk then (0, true) else (-1, true)
      | .directory => (0, false)
      | .nonDirectory => (0, false)

/-- Mount point used by `create_boot_image` (src/src/image.c:18). -/
def mountPoint : String := "/mnt/orangepi_image"

/-- Resource-level action: an individual shell step of the compound
`losetup`/`mount`/`umount` commands built in src/src/image.c and
src/src/kernel.c. -/
inductive ResAct where
  | mkdirp (p : String)
  | loopAttach (file : String)
  | mountAt (partIdx : Nat) (target : String)
  | recordLoopDev
  | umountAt (target : String)
  | loopDetach
  | sync
deriving DecidableEq, Repr

/-- Sub-steps of the compound shell command of `mount_orangepi_partitions`
(src/src/image.c:139-145): make the mount points, bind a free loop device
to the image, mount partition 5 at the mount point and partition 4 at its
`boot` subdirectory, then record the loop device name in
`/tmp/orangepi_loop_device`. -/
def mount_orangepi_script (img mp : String) : List ResAct :=
  [.mkdirp mp, .mkdirp (mp ++ "/boot"), .loopAttach img,
   .mountAt 5 mp, .mountAt 4 (mp ++ "/boot"), .recordLoopDev]

/-- Sub-steps of the compound shell command of `unmount_orangepi_partitions`
(src/src/image.c:249-255): unmount the boot mount, unmount the root mount,
then detach the recorded loop device.  Every step is suffixed `|| true` in
the source, so a missing mount or device is a no-op, and the detach is
guarded by the existence of `/tmp/orangepi_loop_device`. -/
def unmount_orangepi_script (mp : String) : List ResAct :=
  [.umountAt (mp ++ "/boot"), .umountAt mp, .loopDetach]

/-- Resource steps of `create_system_image` in the order the code issues
them (src/src/kernel.c:795-830): loop-device attach, mount-point creation,
then the boot mount (`p2` at /mnt/boot) before the root mount (`p3` at
/mnt/root). -/
def create_system_image_acquire (img : String) : List ResAct :=
  [.loopAttach img, .mkdirp "/mnt/boot", .mkdirp "/mnt/root",
   .mountAt 2 "/mnt/boot", .mountAt 3 "/mnt/root"]

/-- Cleanup steps of `create_system_image` in the order the code issues
them (src/src/kernel.c:867-872): `sync`, then `umount /mnt/boot /mnt/root`
(arguments processed left to right), then the loop-device detach. -/
def create_system_image_release : List ResAct :=
  [.sync, .umountAt "/mnt/boot", .umountAt "/mnt/root", .loopDetach]

/-- The release action that frees a given acquisition action, if it is an
acquisition at all. -/
def releaseFor : ResAct → Option ResAct
  | .loopAttach _ => some .loopDetach
  | .mountAt _ tgt => some (.umountAt tgt)
  | _ => none

/-- Whether an action releases a resource (an unmount or a loop detach). -/
def isReleaseAct : ResAct → Bool
  | .umountAt _ => true
  | .loopDetach => true
  | _ => false

/-- A release sequence is strictly reverse to an acquisition sequence when
its release actions are exactly the releases of the acquisitions, in
reverse order. -/
def strictReverseRelease (acq rel : List ResAct) : Prop :=
  rel.filter isReleaseAct = (acq.filterMap releaseFor).reverse

/-- Effect of one resource action on the multiset of held resources:
attach and mount add a held resource, an unmount removes every mount at
that target (a no-op when none is held), a detach removes every attached
loop device. -/
def applyAct (held : List ResAct) : ResAct → List ResAct
  | .loopAttach f => .loopAttach f :: held
  | .mountAt n t => .mountAt n t :: held
  | .umountAt t =>
    held.filter (fun a => match a with | .mountAt _ t2 => t2 != t | _ => true)
  | .loopDetach =>
    held.filter (fun a => match a with | .loopAttach _ => false | _ => true)
  | _ => held

/-- Resources still held after running a sequence of resource actions from
an empty state. -/
def runActs (l : List ResAct) : List ResAct := l.foldl applyAct []

/-- One `execute_command` call site of the image-assembly path of
src/src/image.c, identified with the parameters the source interpolates
into the command string. -/
inductive ImgStep where
  | mkdirOutput
  | ddCreateImage (sizeMB : Nat)
  | sgdiskPartition
  | mkfsPartitions
  | mountPartitions (mp : String)
  | rsyncRootfs
  | cpBootFiles
  | ddBootloader (combined : Bool)
  | writeBootCmd
  | mkimageBootScr
  | writeArmbianEnv
  | unmountPartitions (mp : String)
  | compressImage
deriving DecidableEq, Repr

/-- Embedding of `create_image_file` (src/src/image.c:85-94): one `dd`
invocation whose result is returned. -/
def create_image_file (exec : ImgStep → Int) (sizeMB : Nat) : Int × List ImgStep :=
  (exec (.ddCreateImage sizeMB), [.ddCreateImage sizeMB])

/-- Embedding of `partition_orangepi_image` (src/src/image.c:97-114): one
`sgdisk` invocation whose result is returned. -/
def partition_orangepi_image (exec : ImgStep → Int) : Int × List ImgStep :=
  (exec .sgdiskPartition, [.sgdiskPartition])

/-- Embedding of `format_orangepi_partitions` (src/src/image.c:117-130):
one compound `losetup`/`mkfs` invocation whose result is returned. -/
def format_orangepi_partitions (exec : ImgStep → Int) : Int × List ImgStep :=
  (exec .mkfsPartitions, [.mkfsPartitions])

/-- Embedding of `mount_orangepi_partitions` (src/src/image.c:133-148). -/
def mount_orangepi_partitions (exec : ImgStep → Int) (mp : String) :
    Int × List ImgStep :=
  (exec (.mountPartitions mp), [.mountPartitions mp])

/-- Embedding of `copy_rootfs_to_image` (src/src/image.c:151-173): fails
only when the `rsync` fails; the subsequent `cp` result is discarded
(the command ends `|| true`). -/
def copy_rootfs_to_image (exec : ImgStep → Int) : Int × List ImgStep :=
  if exec .rsyncRootfs ≠ 0 then (-1, [.rsyncRootfs])
  else (0, [.rsyncRootfs, .cpBootFiles])

/-- Embedding of `install_bootloader_to_image` (src/src/image.c:176-195):
`combined` is whether `u-boot-rockchip.bin` exists (the `access` check at
line 182), selecting the single-`dd` or the two-`dd` fallback command. -/
def install_bootloader_to_image (exec : ImgStep → Int) (combined : Bool) :
    Int × List ImgStep :=
  (exec (.ddBootloader combined), [.ddBootloader combined])

/-- Embedding of `configure_boot_files` (src/src/image.c:198-241): three
commands whose results are all discarded; the function always returns 0. -/
def configure_boot_files (_exec : ImgStep → Int) : Int × List ImgStep :=
  (0, [.writeBootCmd, .mkimageBootScr, .writeArmbianEnv])

/-- Embedding of `unmount_orangepi_partitions` (src/src/image.c:244-258). -/
def unmount_orangepi_partitions (exec : ImgStep → Int) (mp : String) :
    Int × List ImgStep :=
  (exec (.unmountPartitions mp), [.unmountPartitions mp])

/-- Embedding of `compress_final_image` (src/src/image.c:261-275): the
`xz`/`sha256sum` result is discarded; the function always returns 0. -/
def compress_final_image (_exec : ImgStep → Int) : Int × List ImgStep :=
  (0, [.compressImage])

/-- Embedding of `create_boot_image` (src/src/image.c:11-82): the step
sequence with its exact error branching.  `exec` gives each
`execute_command` call's result; `combined` parameterises the bootloader
`access` check.  Result: the `int` return value and the trace of
`execute_command` call sites executed before returning, in order.  The
three failure branches after the mount step (rootfs copy, bootloader
install, boot-file configuration) each run `unmount_orangepi_partitions`
before returning -1 (src/src/image.c:54-72); the mount failure branch
(line 48-51) and the earlier branches return without it. -/
def create_boot_image (exec : ImgStep → Int) (combined : Bool) :
    Int × List ImgStep :=
  let t0 : List ImgStep := [.mkdirOutput]
  let cif := create_image_file exec 6144
  let t1 := t0 ++ cif.2
  if cif.1 ≠ 0 then (-1, t1)
  else
    let par := partition_orangepi_image exec
    let t2 := t1 ++ par.2
    if par.1 ≠ 0 then (-1, t2)
    else
      let fmt := format_orangepi_partitions exec
      let t3 := t2 ++ fmt.2
      if fmt.1 ≠ 0 then (-1, t3)
      else
        let mnt := mount_orangepi_partitions exec mountPoint
        let t4 := t3 ++ mnt.2
        if mnt.1 ≠ 0 then (-1, t4)
        else
          let cpy := copy_rootfs_to_image exec
          let t5 := t4 ++ cpy.2
          if cpy.1 ≠ 0 then (-1, t5 ++ (unmount_orangepi_partitions exec mountPoint).2)
          else
            let boot := install_bootloader_to_image exec combined
            let t6 := t5 ++ boot.2
            if boot.1 ≠ 0 then (-1, t6 ++ (unmount_orangepi_partitions exec mountPoint).2)
            else
              let cfg := configure_boot_files exec
              let t7 := t6 ++ cfg.2
              if cfg.1 ≠ 0 then (-1, t7 ++ (unmount_orangepi_partitions exec mountPoint).2)
              else
                let t8 := t7 ++ (unmount_orangepi_partitions exec mountPoint).2
                let t9 := t8 ++ (compress_final_image exec).2
                (0, t9)

/-- Resource-level expansion of one image-assembly step.  A successful
mount command performs the full mount script; a failed one aborted partway
through its `&&` chain, leaving some oracle-chosen list `abortedMount` of
its sub-steps performed.  The unmount command always performs its full
script, every sub-step being suffixed `|| true` in the source.  No other
image step touches mounts or loop devices (the `mkfs` command detaches the
loop device it attached before returning, src/src/image.c:123-127). -/
def imgStepActs (exec : ImgStep → Int) (img : String) (abortedMount : List ResAct) :
    ImgStep → List ResAct
  | .mountPartitions mp =>
    if exec (.mountPartitions mp) = 0 then mount_orangepi_script img mp
    else abortedMount
  | .unmountPartitions mp => unmount_orangepi_script mp
  | _ => []

/-- Resource-level expansion of an image-assembly trace. -/
def imgTraceActs (exec : ImgStep → Int) (img : String) (abortedMount : List ResAct)
    (tr : List ImgStep) : List ResAct :=
  tr.flatMap (imgStepActs exec img abortedMount)

/-- Actions of `cleanup_build` and `cleanup_on_signal` (builder.c), at the
granularity the claims need: the shell commands it runs and the resource
actions it could have run but does not. -/
inductive SigAct where
  | showCursor
  | shellRm (path : String)
  | closeLogFile
  | closeErrorLogFile
  | sigUmount (target : String)
  | sigLoopDetach
deriving DecidableEq, Repr

/-- Embedding of `cleanup_build` (builder.c:1863-1879): with a NULL config
it returns `ERROR_UNKNOWN` and does nothing; otherwise it removes the
build directory contents and `/tmp/mali_install` and returns
`ERROR_SUCCESS`.  `cfg` carries the config's `build_dir` field. -/
def cleanup_build (cfg : Option String) : Int × List SigAct :=
  match cfg with
  | none => (ErrorCode.unknown.toInt, [])
  | some buildDir =>
    (ErrorCode.success.toInt,
     [.shellRm (buildDir ++ "/*"), .shellRm "/tmp/mali_install"])

/-- Embedding of `cleanup_on_signal` (builder.c:792-810): sets the
`interrupted` flag, restores the cursor, runs `cleanup_build` when
`global_config` is non-NULL, closes the open log sinks, and exits with
status `signal + 128`.  Result: the action list performed before exiting
and the process exit status. -/
def cleanup_on_signal (signum : Nat) (cfg : Option String)
    (logOpen errLogOpen : Bool) : List SigAct × Nat :=
  let buildActs := match cfg with
    | none => []
    | some buildDir => (cleanup_build (some buildDir)).2
  let acts := [SigAct.showCursor] ++ buildActs
    ++ (if logOpen then [SigAct.closeLogFile] else [])
    ++ (if errLogOpen then [SigAct.closeErrorLogFile] else [])
  (acts, signum + 128)

/-- Whether a signal-cleanup action releases a lifecycle-managed resource
(an unmount or a loop-device detach). -/
def isSigRelease : SigAct → Bool
  | .sigUmount _ => true
  | .sigLoopDetach => true
  | _ => false

/-- One partition entry of the `sgdisk` command of
`partition_orangepi_image` (src/src/image.c:103-111), field-for-flag:
`--new=num:first:last --change-name=num:name --typecode=num:typecode`. -/
structure SgPart where
  num : Nat
  first : Int
  last : Int
  name : String
  typecode : String
deriving DecidableEq, Repr

/-- The five `--new`/`--change-name`/`--typecode` groups of the `sgdisk`
command built at src/src/image.c:103-111, transcribed literally. -/
def partition_orangepi_image_table : List SgPart :=
  [⟨1, 64, 8191, "loader1", "8301"⟩,
   ⟨2, 8192, 16383, "loader2", "8301"⟩,
   ⟨3, 16384, 24575, "trust", "8301"⟩,
   ⟨4, 24576, 32767, "boot", "8300"⟩,
   ⟨5, 32768, -1, "rootfs", "8300"⟩]

/-- Filesystem types the image formatter uses. -/
inductive FsType where
  | fat32
  | ext4
deriving DecidableEq, Repr

/-- The two `mkfs` invocations of the compound command built by
`format_orangepi_partitions` (src/src/image.c:123-127): partition number,
filesystem, volume label — `mkfs.fat -F 32 -n BOOT` on partition 4 and
`mkfs.ext4 -L ROOTFS` on partition 5. -/
def format_orangepi_partitions_ops : List (Nat × FsType × String) :=
  [(4, FsType.fat32, "BOOT"), (5, FsType.ext4, "ROOTFS")]

/-- The `dd` writes of `install_bootloader_to_image`
(src/src/image.c:182-192): source file and `seek` argument (512-byte
sectors; `dd` is invoked without `bs=`).  With the combined binary present
a single write at sector 64; otherwise `idbloader.img` at sector 64 and
`u-boot.itb` at sector 16384. -/
def install_bootloader_to_image_writes (combined : Bool) : List (String × Nat) :=
  if combined then [("u-boot-rockchip.bin", 64)]
  else [("idbloader.img", 64), ("u-boot.itb", 16384)]

/-- Action `a` occurs strictly before action `b` in the sequence `l`. -/
def before (l : List ResAct) (a b : ResAct) : Prop :=
  ∃ i j : Nat, i < j ∧ l.get? i = some a ∧ l.get? j = some b

/-- Concrete oracle exercising the populate-failure path: every command
succeeds except the rootfs `rsync`. -/
def execFailRsync : ImgStep → Int
  | .rsyncRootfs => 1
  | _ => 0

/-
Theorems.  Each claim of the specification is settled against the
embedding above; helper lemmas carry the shared inductive arguments.
-/

/-- Helper: when the wait status is nonzero, `execute_command_safe` returns
-1 whatever the command. -/
theorem execute_command_safe_ret_of_fail (cmd : Option String) (so : Bool)
    (status : Nat) (h : status ≠ 0) :
    (execute_command_safe cmd so status).ret = -1 := by
  cases cmd with
  | none => rfl
  | some c =>
    by_cases hc : c.length = 0
    · simp [execute_command_safe, hc]
    · simp [execute_command_safe, hc, h]

/-- Helper: with no interruption and an executor that fails on every
attempt, the retry loop runs all remaining attempts and ends on the
exhausted branch. -/
theorem retryLoop_allFail (interruptedAt : Nat → Bool) (execRet : Nat → Int)
    (hI : ∀ k, interruptedAt k = false) (hF : ∀ k, execRet k ≠ 0) :
    ∀ (remaining attempt : Nat),
      retryLoop interruptedAt execRet attempt remaining =
        ⟨-1, remaining, some ⟨ErrorCode.unknown, exhaustedMessage⟩⟩ := by
  intro remaining
  induction remaining with
  | zero => intro a; rfl
  | succ r ih =>
    intro a
    simp only [retryLoop, hI a, Bool.false_eq_true, if_false, hF a, if_neg (hF a),
      ih (a + 1)]

/-- Helper: if the first `d` attempts fail with the flag clear and the flag
is set at the top of iteration `d + 1`, the loop stops there having made
exactly `d` executor invocations, with no error context. -/
theorem retryLoop_interrupt (interruptedAt : Nat → Bool) (execRet : Nat → Int) :
    ∀ (d r a : Nat), d < r →
      (∀ j, a ≤ j → j < a + d → interruptedAt j = false ∧ execRet j ≠ 0) →
      interruptedAt (a + d) = true →
      retryLoop interruptedAt execRet a r = ⟨-1, d, none⟩ := by
  intro d
  induction d with
  | zero =>
    intro r a hr _ hint
    obtain ⟨r2, rfl⟩ : ∃ r2, r = r2 + 1 := ⟨r - 1, by omega⟩
    have ha : interruptedAt a = true := by simpa using hint
    simp [retryLoop, ha]
  | succ d ih =>
    intro r a hr hpre hint
    obtain ⟨r2, rfl⟩ : ∃ r2, r = r2 + 1 := ⟨r - 1, by omega⟩
    have ha := hpre a (le_refl a) (by omega)
    have hrec := ih r2 (a + 1) (by omega)
      (fun j hj1 hj2 => hpre j (by omega) (by omega))
      (by have : a + 1 + d = a + (d + 1) := by omega
          rw [this]; exact hint)
    simp only [retryLoop, ha.1, Bool.false_eq_true, if_false, if_neg ha.2, hrec]

/-- C3 (counterexample): for the always-failing command "false" with two
attempts and no interruption, the retry wrapper's final error context has
the generic code `ERROR_UNKNOWN` — the very code `execute_command_safe`
assigns to an ordinary single failure — and its fixed message does not
contain the command text, so the result is not a dedicated
`RetriesExhausted` context carrying the original command. -/
theorem C3_counterexample :
    (execute_command_with_retry (some "false") true 2 (fun _ => false)
        (fun _ => 256)).ctx
      = some ⟨ErrorCode.unknown, "Command failed after all retries"⟩ ∧
    (execute_command_safe (some "./other-command") true 256).ctx.map ErrorContext.code
      = some ErrorCode.unknown ∧
    ¬ ("false".toList <:+: "Command failed after all retries".toList) := by
  refine ⟨by decide, by decide, by decide⟩

/-- C3 (amended): for every retry invocation with maximum attempt count
N ≥ 1, a command whose every execution fails and no cancellation signaled,
exactly N executor invocations occur, the wrapper returns -1, and the
logged error context is `ERROR_UNKNOWN` with the fixed message "Command
failed after all retries" (builder.c:843-845). -/
theorem C3_retries_exhausted (cmd : Option String) (so : Bool) (N : Nat)
    (_hN : 1 ≤ N) (intr : Nat → Bool) (hi : ∀ k, intr k = false)
    (statusAt : Nat → Nat) (hfail : ∀ k, statusAt k ≠ 0) :
    execute_command_with_retry cmd so N intr statusAt
      = ⟨-1, N, some ⟨ErrorCode.unknown, exhaustedMessage⟩⟩ := by
  unfold execute_command_with_retry
  exact retryLoop_allFail intr _ hi
    (fun k => by
      rw [execute_command_safe_ret_of_fail cmd so (statusAt k) (hfail k)]
      decide) N 1

/-- C3 witness: the amended theorem applied to the command "false",
N = 3 attempts, every wait status 256. -/
theorem C3_retries_exhausted_witness :
    (1 : Nat) ≤ 3 ∧ (∀ k : Nat, (fun _ : Nat => false) k = false) ∧
    (∀ k : Nat, (fun _ : Nat => (256 : Nat)) k ≠ 0) ∧
    execute_command_with_retry (some "false") true 3 (fun _ => false)
        (fun _ => 256)
      = ⟨-1, 3, some ⟨ErrorCode.unknown, exhaustedMessage⟩⟩ :=
  ⟨by decide, fun _ => rfl, fun _ => (by decide : (256 : Nat) ≠ 0),
   C3_retries_exhausted (some "false") true 3 (by decide) (fun _ => false)
     (fun _ => rfl) (fun _ => 256) (fun _ => (by decide : (256 : Nat) ≠ 0))⟩

/-- C5 (counterexample): the one-space command " " consists only of
whitespace, yet neither executor rejects it: both compose a shell line and
hand it to `system` (a child process is spawned), and with wait status 0
the result is success, not a configuration error. -/
theorem C5_counterexample :
    (" ".toList.all Char.isWhitespace) = true ∧ (" ".length ≠ 0) ∧
    (execute_command (some " ") true 0).2 ≠ [] ∧
    (execute_command (some " ") true 0).1 = 0 ∧
    (execute_command_safe (some " ") true 0).spawned ≠ [] ∧
    (execute_command_safe (some " ") true 0).ret = 0 := by
  refine ⟨by decide, by decide, by decide, by decide, by decide, by decide⟩

/-- C5 (amended): only a NULL or empty command string is rejected
immediately: both executors then return -1 without handing anything to
`system`, `execute_command_safe` populating an `ERROR_UNKNOWN` context
with message "Empty command provided" (there is no ConfigurationError kind
in the taxonomy); whitespace-only non-empty commands are not rejected. -/
theorem C5_empty_rejected (so : Bool) (status : Nat) :
    execute_command none so status = (-1, []) ∧
    execute_command (some "") so status = (-1, []) ∧
    execute_command_safe none so status
      = ⟨-1, some ⟨ErrorCode.unknown, "Empty command provided"⟩, []⟩ ∧
    execute_command_safe (some "") so status
      = ⟨-1, some ⟨ErrorCode.unknown, "Empty command provided"⟩, []⟩ :=
  ⟨rfl, rfl, rfl, rfl⟩

/-- C6 (counterexample): with the interrupted flag set before the first
iteration, the retry wrapper returns the bare value -1 with no error
context whatsoever — the identical return value an ordinary exhausted
failure produces — so no `Cancelled`/`ERROR_USER_CANCELLED` outcome is
propagated. -/
theorem C6_counterexample :
    execute_command_with_retry (some "git clone repo") true 3 (fun _ => true)
        (fun _ => 256)
      = ⟨-1, 0, none⟩ ∧
    (execute_command_with_retry (some "git clone repo") true 3 (fun _ => false)
        (fun _ => 256)).ret
      = (execute_command_with_retry (some "git clone repo") true 3 (fun _ => true)
        (fun _ => 256)).ret := by
  refine ⟨by decide, by decide⟩

/-- C6 (amended): the interrupted flag is checked at the top of every
iteration; if the first k-1 attempts fail without interruption and the
flag is observed set at iteration k ≤ N, no further executor invocations
occur (exactly k-1 were made) and the wrapper returns -1 with no error
context — indistinguishable from an ordinary failure, with no
Cancelled/USER_CANCELLED marker. -/
theorem C6_interrupt_stops_retries (cmd : Option String) (so : Bool)
    (N k : Nat) (intr : Nat → Bool) (statusAt : Nat → Nat)
    (hk1 : 1 ≤ k) (hkN : k ≤ N)
    (hpre : ∀ j, 1 ≤ j → j < k → intr j = false ∧ statusAt j ≠ 0)
    (hint : intr k = true) :
    execute_command_with_retry cmd so N intr statusAt = ⟨-1, k - 1, none⟩ := by
  unfold execute_command_with_retry
  apply retryLoop_interrupt intr _ (k - 1) N 1 (by omega)
  · intro j hj1 hj2
    refine ⟨(hpre j hj1 (by omega)).1, ?_⟩
    rw [execute_command_safe_ret_of_fail cmd so (statusAt j)
      (hpre j hj1 (by omega)).2]
    decide
  · have : 1 + (k - 1) = k := by omega
    rw [this]; exact hint

/-- C6 witness: the amended theorem applied with the flag set before the
first iteration of a three-attempt run. -/
theorem C6_interrupt_witness :
    (1 : Nat) ≤ 1 ∧ (1 : Nat) ≤ 3 ∧
    execute_command_with_retry (some "git clone repo") true 3 (fun _ => true)
        (fun _ => 256)
      = ⟨-1, 0, none⟩ :=
  ⟨by decide, by decide,
   C6_interrupt_stops_retries (some "git clone repo") true 3 1 (fun _ => true)
     (fun _ => 256) (by decide) (by decide)
     (fun j h1 h2 => absurd h2 (Nat.not_lt.mpr h1)) rfl⟩

/-- C8 (counterexample): for the command "false", a nonzero-exit failure
(status 256, exit code 1) and a signal-termination failure (status 9,
signal 9) produce error contexts with the SAME kind `ERROR_UNKNOWN`; the
classification lives only in the message text, so the outcome kind is not
`ProcessSignaled` versus `ProcessExitedNonZero`. -/
theorem C8_counterexample :
    (execute_command_safe (some "false") false 256).ctx
      = some ⟨ErrorCode.unknown, "Command exited with code 1: false"⟩ ∧
    (execute_command_safe (some "false") false 9).ctx
      = some ⟨ErrorCode.unknown, "Command terminated by signal 9: false"⟩ ∧
    (execute_command_safe (some "false") false 256).ctx.map ErrorContext.code
      = (execute_command_safe (some "false") false 9).ctx.map ErrorContext.code := by
  refine ⟨by decide, by decide, by decide⟩

/-- C8 (amended): for every non-empty command the executor returns a binary
outcome (0 on wait status 0, otherwise -1) and on failure populates an
error context whose code is always `ERROR_UNKNOWN` and whose message
carries the termination detail (exit code, or terminating signal) followed
by the literal command text. -/
theorem C8_outcome_classified (cmd : String) (hc : cmd.length ≠ 0) (so : Bool)
    (status : Nat) :
    ((execute_command (some cmd) so status).1
      = if status = 0 then 0 else -1) ∧
    (status = 0 → execute_command_safe (some cmd) so status
      = ⟨0, none, [composedLogCmd BUILDER_LOG_FILE cmd so]⟩) ∧
    (status ≠ 0 →
      (execute_command_safe (some cmd) so status).ret = -1 ∧
      ∃ detail : String,
        (execute_command_safe (some cmd) so status).ctx
          = some ⟨ErrorCode.unknown, detail ++ ": " ++ cmd⟩ ∧
        (WIFEXITED status = true →
          detail = "Command exited with code " ++ toString (WEXITSTATUS status)) ∧
        (WIFEXITED status = false → WIFSIGNALED status = true →
          detail = "Command terminated by signal " ++ toString (WTERMSIG status)) ∧
        (WIFEXITED status = false → WIFSIGNALED status = false →
          detail = "Command failed with unknown status " ++ toString status)) := by
  refine ⟨?_, ?_, ?_⟩
  · by_cases h0 : status = 0 <;> simp [execute_command, hc, h0]
  · intro h0
    simp [execute_command_safe, hc, h0]
  · intro h0
    refine ⟨execute_command_safe_ret_of_fail (some cmd) so status h0, ?_⟩
    by_cases he : WIFEXITED status
    · exact ⟨"Command exited with code " ++ toString (WEXITSTATUS status),
        by simp [execute_command_safe, hc, h0, he, exitedMsg, String.append_assoc],
        fun _ => rfl, fun hf _ => absurd he (by simp [hf]), fun hf _ => absurd he (by simp [hf])⟩
    · by_cases hs : WIFSIGNALED status
      · exact ⟨"Command terminated by signal " ++ toString (WTERMSIG status),
          by simp [execute_command_safe, hc, h0, he, hs, signaledMsg, String.append_assoc],
          fun ht => absurd he (by simp [ht]), fun _ _ => rfl,
          fun _ hf => absurd hs (by simp [hf])⟩
      · exact ⟨"Command failed with unknown status " ++ toString status,
          by simp [execute_command_safe, hc, h0, he, hs, unknownStatusMsg, String.append_assoc],
          fun ht => absurd he (by simp [ht]),
          fun _ ht => absurd hs (by simp [ht]), fun _ _ => rfl⟩

/-- C8 witness: the amended theorem applied to the command "false" with
wait status 256 (normal exit, code 1). -/
theorem C8_outcome_witness :
    ("false".length ≠ 0) ∧
    ((execute_command (some "false") false 256).1
      = if (256 : Nat) = 0 then 0 else -1) ∧
    ((256 : Nat) ≠ 0 →
      (execute_command_safe (some "false") false 256).ret = -1 ∧
      ∃ detail : String,
        (execute_command_safe (some "false") false 256).ctx
          = some ⟨ErrorCode.unknown, detail ++ ": " ++ "false"⟩ ∧
        (WIFEXITED 256 = true →
          detail = "Command exited with code " ++ toString (WEXITSTATUS 256)) ∧
        (WIFEXITED 256 = false → WIFSIGNALED 256 = true →
          detail = "Command terminated by signal " ++ toString (WTERMSIG 256)) ∧
        (WIFEXITED 256 = false → WIFSIGNALED 256 = false →
          detail = "Command failed with unknown status " ++ toString 256)) :=
  ⟨by decide, (C8_outcome_classified "false" (by decide) false 256).1,
   (C8_outcome_classified "false" (by decide) false 256).2.2⟩

/-- C9: directory creation is idempotent in both variants: a path that
already exists as a directory yields success with no `mkdir` call, and an
absent path is created — success when `mkdir` succeeds. -/
theorem C9_mkdir_idempotent (p : String) (hp : p.length ≠ 0) (mk : Bool) :
    (create_directory (some p) PathState.directory mk = (0, false) ∧
     create_directory_safe (some p) PathState.directory mk = (0, false)) ∧
    (mk = true →
     create_directory (some p) PathState.absent mk = (0, true) ∧
     create_directory_safe (some p) PathState.absent mk = (0, true)) := by
  constructor
  · exact ⟨rfl, by simp [create_directory_safe, hp]⟩
  · rintro rfl
    exact ⟨rfl, by simp [create_directory_safe, hp]⟩

/-- C9 witness: the idempotence theorem applied to the path "/tmp/x". -/
theorem C9_mkdir_idempotent_witness :
    (("/tmp/x" : String).length ≠ 0) ∧
    ((create_directory (some "/tmp/x") PathState.directory true = (0, false) ∧
      create_directory_safe (some "/tmp/x") PathState.directory true = (0, false)) ∧
     (true = true →
      create_directory (some "/tmp/x") PathState.absent true = (0, true) ∧
      create_directory_safe (some "/tmp/x") PathState.absent true = (0, true))) :=
  ⟨by decide, C9_mkdir_idempotent "/tmp/x" (by decide) true⟩

/-- C10: on a path that exists but is not a directory, `create_directory`
(src/system_utils.c:76-81) returns -1 without calling `mkdir`, whereas
`create_directory_safe` (builder.c:940-946) returns 0 for the same input:
the two build variants disagree at this edge case. -/
theorem C10_nondirectory_divergence (p : String) (hp : p.length ≠ 0) (mk : Bool) :
    create_directory (some p) PathState.nonDirectory mk = (-1, false) ∧
    create_directory_safe (some p) PathState.nonDirectory mk = (0, false) ∧
    (create_directory (some p) PathState.nonDirectory mk).1
      ≠ (create_directory_safe (some p) PathState.nonDirectory mk).1 := by
  refine ⟨rfl, by simp [create_directory_safe, hp], ?_⟩
  simp [create_directory, create_directory_safe, hp]

/-- C1: in `create_boot_image`, for every failure at a step after the
loop device and mounts were acquired (rootfs populate, bootloader
install, boot-file configuration), the release sequence
`unmount_orangepi_partitions` — boot unmount, root unmount, loop-device
detach — executes before the function returns the error, and whenever the
mount command succeeded the resource state left behind by the executed
trace holds no live mount and no bound loop device, on every exit path. -/
theorem C1_cleanup_on_failure (exec : ImgStep → Int) (combined : Bool)
    (img : String) (aborted : List ResAct)
    (hm : exec (.mountPartitions mountPoint) = 0) :
    (ImgStep.mountPartitions mountPoint ∈ (create_boot_image exec combined).2 →
      (create_boot_image exec combined).1 = -1 →
      ImgStep.unmountPartitions mountPoint ∈ (create_boot_image exec combined).2) ∧
    runActs (imgTraceActs exec img aborted (create_boot_image exec combined).2) = [] := by
  by_cases h1 : exec (.ddCreateImage 6144) = 0
  case neg =>
    have htr : create_boot_image exec combined
        = (-1, [.mkdirOutput, .ddCreateImage 6144]) := by
      simp [create_boot_image, create_image_file, h1]
    rw [htr]
    refine ⟨fun hmem _ => absurd hmem (by simp), ?_⟩
    simp [imgTraceActs, imgStepActs, runActs]
  by_cases h2 : exec .sgdiskPartition = 0
  case neg =>
    have htr : create_boot_image exec combined
        = (-1, [.mkdirOutput, .ddCreateImage 6144, .sgdiskPartition]) := by
      simp [create_boot_image, create_image_file, partition_orangepi_image, h1, h2]
    rw [htr]
    refine ⟨fun hmem _ => absurd hmem (by simp), ?_⟩
    simp [imgTraceActs, imgStepActs, runActs]
  by_cases h3 : exec .mkfsPartitions = 0
  case neg =>
    have htr : create_boot_image exec combined
        = (-1, [.mkdirOutput, .ddCreateImage 6144, .sgdiskPartition, .mkfsPartitions]) := by
      simp [create_boot_image, create_image_file, partition_orangepi_image,
        format_orangepi_partitions, h1, h2, h3]
    rw [htr]
    refine ⟨fun hmem _ => absurd hmem (by simp), ?_⟩
    simp [imgTraceActs, imgStepActs, runActs]
  by_cases h5 : exec .rsyncRootfs = 0
  case neg =>
    have htr : create_boot_image exec combined
        = (-1, [.mkdirOutput, .ddCreateImage 6144, .sgdiskPartition, .mkfsPartitions,
            .mountPartitions mountPoint, .rsyncRootfs, .unmountPartitions mountPoint]) := by
      simp [create_boot_image, create_image_file, partition_orangepi_image,
        format_orangepi_partitions, mount_orangepi_partitions, copy_rootfs_to_image,
        unmount_orangepi_partitions, h1, h2, h3, hm, h5]
    rw [htr]
    refine ⟨fun _ _ => by simp, ?_⟩
    have hacts : imgTraceActs exec img aborted
        [.mkdirOutput, .ddCreateImage 6144, .sgdiskPartition, .mkfsPartitions,
         .mountPartitions mountPoint, .rsyncRootfs, .unmountPartitions mountPoint]
        = mount_orangepi_script img mountPoint ++ unmount_orangepi_script mountPoint := by
      simp [imgTraceActs, imgStepActs, hm]
    rw [hacts]
    rfl
  by_cases h6 : exec (.ddBootloader combined) = 0
  case neg =>
    have htr : create_boot_image exec combined
        = (-1, [.mkdirOutput, .ddCreateImage 6144, .sgdiskPartition, .mkfsPartitions,
            .mountPartitions mountPoint, .rsyncRootfs, .cpBootFiles, .ddBootloader combined,
            .unmountPartitions mountPoint]) := by
      simp [create_boot_image, create_image_file, partition_orangepi_image,
        format_orangepi_partitions, mount_orangepi_partitions, copy_rootfs_to_image,
        install_bootloader_to_image, unmount_orangepi_partitions, h1, h2, h3, hm, h5, h6]
    rw [htr]
    refine ⟨fun _ _ => by simp, ?_⟩
    have hacts : imgTraceActs exec img aborted
        [.mkdirOutput, .ddCreateImage 6144, .sgdiskPartition, .mkfsPartitions,
         .mountPartitions mountPoint, .rsyncRootfs, .cpBootFiles, .ddBootloader combined,
         .unmountPartitions mountPoint]
        = mount_orangepi_script img mountPoint ++ unmount_orangepi_script mountPoint := by
      simp [imgTraceActs, imgStepActs, hm]
    rw [hacts]
    rfl
  have htr : create_boot_image exec combined
      = (0, [.mkdirOutput, .ddCreateImage 6144, .sgdiskPartition, .mkfsPartitions,
          .mountPartitions mountPoint, .rsyncRootfs, .cpBootFiles, .ddBootloader combined,
          .writeBootCmd, .mkimageBootScr, .writeArmbianEnv,
          .unmountPartitions mountPoint, .compressImage]) := by
    simp [create_boot_image, create_image_file, partition_orangepi_image,
      format_orangepi_partitions, mount_orangepi_partitions, copy_rootfs_to_image,
      install_bootloader_to_image, configure_boot_files, unmount_orangepi_partitions,
      compress_final_image, h1, h2, h3, hm, h5, h6]
  rw [htr]
  refine ⟨fun _ _ => by simp, ?_⟩
  have hacts : imgTraceActs exec img aborted
      [.mkdirOutput, .ddCreateImage 6144, .sgdiskPartition, .mkfsPartitions,
       .mountPartitions mountPoint, .rsyncRootfs, .cpBootFiles, .ddBootloader combined,
       .writeBootCmd, .mkimageBootScr, .writeArmbianEnv,
       .unmountPartitions mountPoint, .compressImage]
      = mount_orangepi_script img mountPoint ++ unmount_orangepi_script mountPoint := by
    simp [imgTraceActs, imgStepActs, hm]
  rw [hacts]
  rfl

/-- C1 witness: the cleanup theorem applied to the oracle that fails at
the rootfs populate step, with every other command succeeding. -/
theorem C1_cleanup_on_failure_witness :
    execFailRsync (.mountPartitions mountPoint) = 0 ∧
    ((ImgStep.mountPartitions mountPoint ∈ (create_boot_image execFailRsync false).2 →
       (create_boot_image execFailRsync false).1 = -1 →
       ImgStep.unmountPartitions mountPoint ∈ (create_boot_image execFailRsync false).2) ∧
     runActs (imgTraceActs execFailRsync "/tmp/opi.img" []
       (create_boot_image execFailRsync false).2) = []) :=
  ⟨rfl, C1_cleanup_on_failure execFailRsync false "/tmp/opi.img" [] rfl⟩

/-- C2 (counterexample): on SIGINT (signal 2) with a live configuration and
open log sinks, the entire action sequence `cleanup_on_signal` performs
before exiting contains no unmount and no loop-device detach: the
resource-teardown path it runs (`cleanup_build`) only removes build
directories, so active mounts and bound loop devices are not released. -/
theorem C2_counterexample :
    ((cleanup_on_signal 2 (some BUILDER_BUILD_DIR) true true).1.all
      (fun a => !(isSigRelease a))) = true ∧
    (cleanup_on_signal 2 (some BUILDER_BUILD_DIR) true true).1
      = [SigAct.showCursor, SigAct.shellRm (BUILDER_BUILD_DIR ++ "/*"),
         SigAct.shellRm "/tmp/mali_install", SigAct.closeLogFile,
         SigAct.closeErrorLogFile] ∧
    (cleanup_on_signal 2 (some BUILDER_BUILD_DIR) true true).2 = 130 := by
  refine ⟨by decide, by decide, by decide⟩

/-- C2 (amended): on any cancellation signal the process exits with the
distinguished status signal + 128 — distinct from every `error_code_t`
value used as an ordinary failure code — after running `cleanup_build`
(build-artifact removal) and closing the log sinks; the teardown performed
contains no unmount and no loop-device detach. -/
theorem C2_signal_exit (signum : Nat) (h : 1 ≤ signum) (cfg : Option String)
    (lo eo : Bool) :
    (cleanup_on_signal signum cfg lo eo).2 = signum + 128 ∧
    (∀ c : ErrorCode, ((signum : Int) + 128) ≠ c.toInt) ∧
    ((cleanup_on_signal signum cfg lo eo).1.all (fun a => !(isSigRelease a))) = true := by
  refine ⟨rfl, ?_, ?_⟩
  · intro c
    have h1 : (1 : Int) ≤ (signum : Int) := by exact_mod_cast h
    cases c <;> simp only [ErrorCode.toInt] <;> omega
  · rcases cfg with _ | bd <;> cases lo <;> cases eo <;> rfl

/-- C2 witness: the amended theorem applied to SIGINT with a live
configuration and both log sinks open. -/
theorem C2_signal_exit_witness :
    (1 : Nat) ≤ 2 ∧
    ((cleanup_on_signal 2 (some "/tmp/opi5plus_build") true true).2 = 2 + 128 ∧
     (∀ c : ErrorCode, ((2 : Nat) : Int) + 128 ≠ c.toInt) ∧
     ((cleanup_on_signal 2 (some "/tmp/opi5plus_build") true true).1.all
       (fun a => !(isSigRelease a))) = true) :=
  ⟨by decide, C2_signal_exit 2 (by decide) (some "/tmp/opi5plus_build") true true⟩

/-- C4: the partition table built by `partition_orangepi_image` always
contains the five named partitions loader1, loader2, trust, boot, rootfs
starting at sectors 64, 8192, 16384, 24576, 32768; the partition formatted
FAT32 is number 4, the one named "boot" in the table, and the partition
formatted ext4 is number 5, named "rootfs"; and `install_bootloader_to_image`
writes at sector 64 (combined binary) or sectors 64 and 16384 (fallback),
the offsets the layout declares. -/
theorem C4_fixed_layout :
    partition_orangepi_image_table.map SgPart.name
      = ["loader1", "loader2", "trust", "boot", "rootfs"] ∧
    partition_orangepi_image_table.map SgPart.first
      = [64, 8192, 16384, 24576, 32768] ∧
    (∀ e ∈ format_orangepi_partitions_ops, e.2.1 = FsType.fat32 →
      ∃ p ∈ partition_orangepi_image_table,
        p.num = e.1 ∧ p.name = "boot" ∧ p.first = 24576) ∧
    (∀ e ∈ format_orangepi_partitions_ops, e.2.1 = FsType.ext4 →
      ∃ p ∈ partition_orangepi_image_table,
        p.num = e.1 ∧ p.name = "rootfs" ∧ p.first = 32768) ∧
    (∃ e ∈ format_orangepi_partitions_ops, e.1 = 4 ∧ e.2.1 = FsType.fat32) ∧
    (∃ e ∈ format_orangepi_partitions_ops, e.1 = 5 ∧ e.2.1 = FsType.ext4) ∧
    install_bootloader_to_image_writes true = [("u-boot-rockchip.bin", 64)] ∧
    install_bootloader_to_image_writes false
      = [("idbloader.img", 64), ("u-boot.itb", 16384)] := by
  refine ⟨by decide, by decide, by decide, by decide, by decide, by decide,
    by decide, by decide⟩

/-- C7 (counterexample): in `create_system_image` (src/src/kernel.c) the
release sequence is NOT the strict reverse of the acquisition sequence:
the boot mount is acquired before the root mount, yet it is also released
first — `umount /mnt/boot /mnt/root` — so the strict-reverse property
fails at this site. -/
theorem C7_counterexample :
    ¬ strictReverseRelease (create_system_image_acquire "/tmp/x.img")
        create_system_image_release ∧
    create_system_image_release.filter isReleaseAct
      = [ResAct.umountAt "/mnt/boot", ResAct.umountAt "/mnt/root",
         ResAct.loopDetach] ∧
    ((create_system_image_acquire "/tmp/x.img").filterMap releaseFor).reverse
      = [ResAct.umountAt "/mnt/root", ResAct.umountAt "/mnt/boot",
         ResAct.loopDetach] := by
  refine ⟨?_, by decide, by decide⟩
  unfold strictReverseRelease
  decide

/-- C7 (amended): in image.c, `unmount_orangepi_partitions` is the strict
reverse of `mount_orangepi_partitions` (boot mount released before root
mount, all mounts before the loop-device detach); in kernel.c's
`create_system_image` the boot mount is likewise unmounted before the root
mount and both before the detach, but this repeats — rather than
reverses — its boot-before-root acquisition order. -/
theorem C7_release_order (img mp : String) :
    strictReverseRelease (mount_orangepi_script img mp)
      (unmount_orangepi_script mp) ∧
    before (unmount_orangepi_script mp) (ResAct.umountAt (mp ++ "/boot"))
      (ResAct.umountAt mp) ∧
    before (unmount_orangepi_script mp) (ResAct.umountAt mp) ResAct.loopDetach ∧
    before create_system_image_release (ResAct.umountAt "/mnt/boot")
      (ResAct.umountAt "/mnt/root") ∧
    before create_system_image_release (ResAct.umountAt "/mnt/root")
      ResAct.loopDetach :=
  ⟨rfl,
   ⟨0, 1, by omega, rfl, rfl⟩,
   ⟨1, 2, by omega, rfl, rfl⟩,
   ⟨1, 2, by omega, rfl, rfl⟩,
   ⟨2, 3, by omega, rfl, rfl⟩⟩

/-- C10 witness: the divergence theorem applied to the path "/tmp/x". -/
theorem C10_nondirectory_divergence_witness :
    (("/tmp/x" : String).length ≠ 0) ∧
    (create_directory (some "/tmp/x") PathState.nonDirectory false = (-1, false) ∧
     create_directory_safe (some "/tmp/x") PathState.nonDirectory false = (0, false) ∧
     (create_directory (some "/tmp/x") PathState.nonDirectory false).1
       ≠ (create_directory_safe (some "/tmp/x") PathState.nonDirectory false).1) :=
  ⟨by decide, C10_nondirectory_divergence "/tmp/x" (by decide) false⟩

end OPi
